import Mathlib

/-!
Shallow embedding of the `sigil` rendering demo (Rust, wgpu + egui).

Numeric convention: the program's `f32` parameter values are modelled as exact
rationals (`ℚ`) and its `u32` sizes as `ℕ`.  GPU objects (buffers, textures,
bind groups) are modelled by the data that describes them; per-frame GPU work
is modelled as an explicit list of commands in the order the code records them.
-/

namespace Sigil

/-- Embeds `ui.rs` `UiSineWaveData`: the six editable wave parameters plus the
`init` flag marking the slot as active. -/
structure UiSineWaveData where
  amplitude : ℚ
  center : ℚ × ℚ
  inner_radius : ℚ
  thickness : ℚ
  cycles : ℚ
  speed : ℚ
  init : Bool
  deriving DecidableEq, Repr

/-- Embeds `impl Default for UiSineWaveData` (`ui.rs`). -/
def UiSineWaveData.default : UiSineWaveData :=
  { amplitude := 5/100
    center := (1/2, 1/2)
    inner_radius := 1/2
    thickness := 1/100
    cycles := 8
    speed := 5/1000
    init := false }

/-- Embeds `impl Default for UiWaves` (`ui.rs`): `array::from_fn` builds 8
default slots, then slot 0 gets `init = true`.  The fixed-size array
`[UiSineWaveData; 8]` is modelled as a list of length 8. -/
def UiWaves.default : List UiSineWaveData :=
  (List.replicate 8 UiSineWaveData.default).set 0
    { UiSineWaveData.default with init := true }

/-- Embeds egui widgets as they are added by `Ui::panel` (`ui.rs`): a button,
a slider with its bound current value, an inclusive range, an optional step,
and a text label, plain labels, and separators. -/
inductive Widget where
  | button (label : String)
  | slider (value lo hi : ℚ) (step : Option ℚ) (label : String)
  | textLabel (text : String)
  | separator
  deriving DecidableEq, Repr

/-- The widgets `Ui::panel` adds for one initialized wave slot (`ui.rs`,
the `for_each` body): the Center label, then the six parameter sliders with
the ranges written in the source, interleaved with separators. -/
def sliderWidgetsOfWave (w : UiSineWaveData) : List Widget :=
  [Widget.textLabel "Center: ",
   Widget.slider w.center.1 0 1 none "X",
   Widget.slider w.center.2 0 1 none "Y",
   Widget.separator,
   Widget.slider w.amplitude 0 (1/10) none "Amplitude",
   Widget.separator,
   Widget.slider w.inner_radius 0 1 none "Inner Radius",
   Widget.separator,
   Widget.slider w.thickness (1/100) (1/10) none "Thickness",
   Widget.separator,
   Widget.slider w.cycles 1 16 (some 1) "Cycles",
   Widget.separator,
   Widget.slider w.speed (-(1/10)) (1/10) none "Speed",
   Widget.separator,
   Widget.separator]

/-- Embeds the widget layout of `Ui::panel` (`ui.rs`): if
`iter().position(|w| !w.init)` finds an uninitialized slot the Add Wave
button is shown, then separators, then the per-wave sliders for every slot
whose `init` flag is set, in slot order. -/
def panelWidgets (waves : List UiSineWaveData) : List Widget :=
  (match waves.findIdx? (fun w => !w.init) with
   | some _ => [Widget.button "Add Wave"]
   | none => []) ++
  [Widget.separator, Widget.separator] ++
  (waves.filter (fun w => w.init)).flatMap sliderWidgetsOfWave

/-- Embeds the click handler of the Add Wave button in `Ui::panel`
(`ui.rs`): `position` finds the first slot with `init == false` and the
click sets that slot's `init` to `true`; with no such slot no button exists
so a click cannot happen and the waves are unchanged. -/
def add_wave_click (waves : List UiSineWaveData) : List UiSineWaveData :=
  match waves.findIdx? (fun w => !w.init) with
  | some pos =>
      waves.set pos { waves.getD pos UiSineWaveData.default with init := true }
  | none => waves

/-- Embeds one slider interaction in `Ui::panel` (`ui.rs`): egui sliders
mutate the bound field of the slot they were created for, and `panel` only
creates sliders for slots with `init == true`, so an edit of slot `i`
rewrites one field of that slot when it is initialized and does nothing
otherwise. -/
inductive UiOp where
  | addWave
  | setCenterX (i : ℕ) (v : ℚ)
  | setCenterY (i : ℕ) (v : ℚ)
  | setAmplitude (i : ℕ) (v : ℚ)
  | setInnerRadius (i : ℕ) (v : ℚ)
  | setThickness (i : ℕ) (v : ℚ)
  | setCycles (i : ℕ) (v : ℚ)
  | setSpeed (i : ℕ) (v : ℚ)
  deriving DecidableEq, Repr

/-- Applies a field edit to slot `i` when that slot is initialized (only
initialized slots have sliders in `Ui::panel`). -/
def editSlot (waves : List UiSineWaveData) (i : ℕ)
    (f : UiSineWaveData → UiSineWaveData) : List UiSineWaveData :=
  if (waves.getD i UiSineWaveData.default).init then
    waves.set i (f (waves.getD i UiSineWaveData.default))
  else waves

/-- One user interaction with the control panel of `Ui::panel` (`ui.rs`). -/
def apply_ui_op (waves : List UiSineWaveData) : UiOp → List UiSineWaveData
  | .addWave => add_wave_click waves
  | .setCenterX i v => editSlot waves i (fun w => { w with center := (v, w.center.2) })
  | .setCenterY i v => editSlot waves i (fun w => { w with center := (w.center.1, v) })
  | .setAmplitude i v => editSlot waves i (fun w => { w with amplitude := v })
  | .setInnerRadius i v => editSlot waves i (fun w => { w with inner_radius := v })
  | .setThickness i v => editSlot waves i (fun w => { w with thickness := v })
  | .setCycles i v => editSlot waves i (fun w => { w with cycles := v })
  | .setSpeed i v => editSlot waves i (fun w => { w with speed := v })

/-- Embeds `pipelines/sine.rs` `SineWaveData`: the per-instance wave data
stored by the sine pipeline (plus explicit padding). -/
structure SineWaveData where
  center : ℚ × ℚ
  inner_radius : ℚ
  thickness : ℚ
  amplitude : ℚ
  cycles : ℚ
  speed : ℚ
  padding : ℚ
  deriving DecidableEq, Repr

/-- Embeds `impl Default for SineWaveData` (`pipelines/sine.rs`). -/
def SineWaveData.default : SineWaveData :=
  { amplitude := 5/100
    center := (1/2, 1/2)
    inner_radius := 1/2
    thickness := 1/100
    cycles := 8
    speed := 5/1000
    padding := 0 }

/-- Modelled from the spec: `Render::new` (`render.rs`) calls
`Waves::default()` but no `Default` impl for `Waves` appears under `src/`
(only the struct declaration and this caller).  The spec's control panel
edits every UI wave slot and "adding multiple waves" must reach the sine
pipeline, whose instance count is the stored vector's length, so the stored
wave vector is modelled with one default entry per UI slot (8). -/
def Waves.default : List SineWaveData := List.replicate 8 SineWaveData.default

/-- Embeds the `for_each` body of `SinePipeline::update_sine_wave_data`
(`pipelines/sine.rs`): the six parameter fields are copied from the UI data
into the stored wave data (the padding is untouched). -/
def copyWave (old : SineWaveData) (new : UiSineWaveData) : SineWaveData :=
  { old with
    center := new.center
    amplitude := new.amplitude
    inner_radius := new.inner_radius
    thickness := new.thickness
    cycles := new.cycles
    speed := new.speed }

/-- Embeds `SinePipeline::update_sine_wave_data` (`pipelines/sine.rs`): the
stored waves are zipped with the UI waves and copied index by index (the
`zip` stops at the shorter of the two). -/
def update_sine_wave_data (old : List SineWaveData)
    (ui : List UiSineWaveData) : List SineWaveData :=
  List.zipWith copyWave old ui

/-- Embeds `global.rs` `Global`: the uniform holding the resolution and the
animation phase (plus explicit padding). -/
structure Global where
  resolution : ℚ × ℚ
  phase : ℚ
  padding : ℚ
  deriving DecidableEq, Repr

/-- Embeds `Global::new` (`global.rs`). -/
def Global.new (width height : ℕ) : Global :=
  { resolution := ((width : ℚ), (height : ℚ)), phase := 0, padding := 0 }

/-- Embeds `Global::increment_frame` (`global.rs`): `phase = phase + 1.`. -/
def Global.increment_frame (g : Global) : Global :=
  { g with phase := g.phase + 1 }

/-- Embeds `Global::set_resolution` (`global.rs`). -/
def Global.set_resolution (g : Global) (width height : ℕ) : Global :=
  { g with resolution := ((width : ℚ), (height : ℚ)) }

/-- Texture formats are modelled by an identifying code together with the
answer `wgpu::TextureFormat::is_srgb` gives for them. -/
structure TextureFormat where
  code : ℕ
  srgb : Bool
  deriving DecidableEq, Repr

/-- Model of `format.is_srgb()`. -/
def TextureFormat.is_srgb (f : TextureFormat) : Bool := f.srgb

/-- Present modes and alpha modes are opaque to the program; they are
modelled by codes. -/
abbrev PresentMode := ℕ

/-- Alpha modes, modelled by codes. -/
abbrev AlphaMode := ℕ

/-- Model of `wgpu::SurfaceCapabilities`: the three lists `Render::new`
reads. -/
structure SurfaceCapabilities where
  formats : List TextureFormat
  present_modes : List PresentMode
  alpha_modes : List AlphaMode
  deriving DecidableEq, Repr

/-- Embeds the fields of `wgpu::SurfaceConfiguration` that `Render::new`
and `Render::resize` (`render.rs`) write. -/
structure SurfaceConfiguration where
  format : TextureFormat
  width : ℕ
  height : ℕ
  present_mode : PresentMode
  alpha_mode : AlphaMode
  deriving DecidableEq, Repr

/-- A texture is modelled by the size and format it was created with
(`Render::create_off_screen_texture`, `render.rs`). -/
structure TextureSpec where
  width : ℕ
  height : ℕ
  format : TextureFormat
  deriving DecidableEq, Repr

/-- Embeds the mutable state of `SinePipeline` (`pipelines/sine.rs`): its
copy of the `Global` uniform and the stored wave vector. -/
structure SinePipeline where
  global : Global
  wave_data : List SineWaveData
  deriving DecidableEq, Repr

/-- Embeds the mutable state of `PostPipeline` (`pipelines/post.rs`): its
copy of the `Global` uniform and the texture its off-screen bind group was
built from. -/
structure PostPipeline where
  global : Global
  off_screen_binding : TextureSpec
  deriving DecidableEq, Repr

/-- Model of the winit window events `App::window_event` (`app.rs`)
matches on; `other` stands for every arm that falls into `_ => ()`. -/
inductive WindowEvent where
  | closeRequested
  | resized (width height : ℕ)
  | redrawRequested
  | other (code : ℕ)
  deriving DecidableEq, Repr

/-- Embeds the state of `Ui` (`ui.rs`): the wave slots, and the opaque
`egui_winit::State` modelled by the sequence of window events that
`on_window_event` has been fed. -/
structure Ui where
  waves : List UiSineWaveData
  egui_events : List WindowEvent
  deriving DecidableEq, Repr

/-- Embeds `Ui::new` (`ui.rs`): default waves, fresh egui state. -/
def Ui.new : Ui := { waves := UiWaves.default, egui_events := [] }

/-- Embeds `Ui::handle_input` (`ui.rs`): the event is handed to
`egui_winit::State::on_window_event`. -/
def Ui.handle_input (u : Ui) (e : WindowEvent) : Ui :=
  { u with egui_events := u.egui_events ++ [e] }

/-- Embeds the state of `Render` (`render.rs`): the surface configuration,
the configuration last passed to `surface.configure`, the two pipelines,
the off-screen texture (whose view also backs the post pipeline's bind
group), and the UI. -/
structure Render where
  config : SurfaceConfiguration
  surface_configured_with : SurfaceConfiguration
  sine_pipeline : SinePipeline
  post_pipeline : PostPipeline
  off_screen_texture : TextureSpec
  ui : Ui
  deriving DecidableEq, Repr

/-- Embeds the surface-format selection of `Render::new` (`render.rs`):
the first sRGB format, or else the first listed format. -/
def choose_surface_format (caps : SurfaceCapabilities) : Option TextureFormat :=
  ((caps.formats.find? (fun f => f.is_srgb)).or caps.formats.head?)

/-- Embeds `Render::new` (`render.rs`) from the point the surface
capabilities are known: format, present-mode and alpha-mode selection (each
`ok_or_else` becomes an error), surface configuration at the window's inner
size, off-screen texture creation at the config size, UI construction, and
both pipelines built from `Global::new(800, 600)`.  The fallible external
calls before `get_capabilities` (surface, adapter, device) are outside the
model; `window_width`/`window_height` is `window.inner_size()`. -/
def Render.new (caps : SurfaceCapabilities)
    (window_width window_height : ℕ) : Except String Render :=
  match choose_surface_format caps with
  | none => Except.error "Surface is incompatible with the adapter"
  | some surface_format =>
    match caps.present_modes.head? with
    | none => Except.error "Surface is incompatible with the adapter"
    | some present_mode =>
      match caps.alpha_modes.head? with
      | none => Except.error "No supported alpha modes found"
      | some alpha_mode =>
        let config : SurfaceConfiguration :=
          { format := surface_format
            width := window_width
            height := window_height
            present_mode := present_mode
            alpha_mode := alpha_mode }
        let off_screen_texture : TextureSpec :=
          { width := config.width, height := config.height, format := config.format }
        let global := Global.new 800 600
        Except.ok
          { config := config
            surface_configured_with := config
            sine_pipeline := { global := global, wave_data := Waves.default }
            post_pipeline := { global := global, off_screen_binding := off_screen_texture }
            off_screen_texture := off_screen_texture
            ui := Ui.new }

/-- Embeds `Render::resize` (`render.rs`): with both dimensions positive it
updates the config size, reconfigures the surface, updates both pipelines'
global resolution, recreates the off-screen texture at the new size and
rebuilds the post pipeline's off-screen bind group from its view; otherwise
it does nothing. -/
def Render.resize (r : Render) (width height : ℕ) : Render :=
  if 0 < height ∧ 0 < width then
    let config := { r.config with width := width, height := height }
    let off_screen_texture : TextureSpec :=
      { width := width, height := height, format := config.format }
    { r with
      config := config
      surface_configured_with := config
      sine_pipeline :=
        { r.sine_pipeline with
          global := r.sine_pipeline.global.set_resolution width height }
      post_pipeline :=
        { global := r.post_pipeline.global.set_resolution width height
          off_screen_binding := off_screen_texture }
      off_screen_texture := off_screen_texture }
  else r

/-- Embeds `Render::handle_ui_inputs` (`render.rs`). -/
def Render.handle_ui_inputs (r : Render) (e : WindowEvent) : Render :=
  { r with ui := r.ui.handle_input e }

/-- The two render targets a pass of `Render::render` attaches
(`render.rs`). -/
inductive Attachment where
  | offScreen
  | surface
  deriving DecidableEq, Repr

/-- The load operation of a pass: `LoadOp::Clear(Color::BLACK)` or
`LoadOp::Load`. -/
inductive PassLoadOp where
  | clearBlack
  | load
  deriving DecidableEq, Repr

/-- The GPU-visible steps `Render::render` (`render.rs`) performs, in the
order the code records them: uniform and instance-buffer writes, render
passes with their target and load op, the draws inside them, the queue
submit and the present. -/
inductive RenderCmd where
  | writeGlobalBuffer (g : Global)
  | writeWaveBuffer (waves : List SineWaveData)
  | beginRenderPass (target : Attachment) (loadOp : PassLoadOp)
  | drawSine (instances : ℕ)
  | drawPost
  | drawUi
  | submit
  | present
  deriving DecidableEq, Repr

/-- Result of one `Render::render` call: the mutated state, the commands
recorded, and whether the call returned `Ok` (`surface.get_current_texture`
is the only fallible step; its success is the `surface_ok` input). -/
structure RenderResult where
  state : Render
  cmds : List RenderCmd
  ok : Bool
  deriving DecidableEq, Repr

/-- Embeds `Render::render` (`render.rs`).  In source order:
`update_global_frame` increments the phase and writes the global buffer;
`update_sine_wave_data` copies the UI waves and writes the instance buffer;
then `get_current_texture` (the `?` propagates its failure, after the two
updates); then the off-screen pass clearing to black with the sine draw,
the surface pass clearing to black with the post draw, the UI pass on the
surface with `LoadOp::Load`, one submit, and present. -/
def Render.render (r : Render) (surface_ok : Bool) : RenderResult :=
  let global' := r.sine_pipeline.global.increment_frame
  let waves' := update_sine_wave_data r.sine_pipeline.wave_data r.ui.waves
  let r' := { r with sine_pipeline := { global := global', wave_data := waves' } }
  let pre : List RenderCmd :=
    [RenderCmd.writeGlobalBuffer global', RenderCmd.writeWaveBuffer waves']
  if surface_ok then
    { state := r'
      cmds := pre ++
        [RenderCmd.beginRenderPass .offScreen .clearBlack,
         RenderCmd.drawSine waves'.length,
         RenderCmd.beginRenderPass .surface .clearBlack,
         RenderCmd.drawPost,
         RenderCmd.beginRenderPass .surface .load,
         RenderCmd.drawUi,
         RenderCmd.submit,
         RenderCmd.present]
      ok := true }
  else
    { state := r', cmds := pre, ok := false }

/-- Embeds `app.rs` `App`: either holds a `Render` or is uninitialized
(the `#[default]` variant). -/
inductive App where
  | initialized (render : Render)
  | uninitialized
  deriving DecidableEq, Repr

/-- Embeds `impl Default for App` (`app.rs`, derived): `Uninitialized`. -/
def App.default : App := App.uninitialized

/-- Embeds `App::is_initialized` (`app.rs`). -/
def App.is_initialized : App → Bool
  | .uninitialized => false
  | .initialized _ => true

/-- Embeds `App::resumed` (`app.rs`): if already initialized it returns at
once; otherwise it creates one window, builds a `Render` for it and becomes
`Initialized`.  `new_render` stands for the `Render::new` result for the
fresh window (window and render creation failures panic in the source and
end the process, so the model covers the successful path); the second
component counts the windows this call created. -/
def App.resumed (a : App) (new_render : Render) : App × ℕ :=
  if a.is_initialized then (a, 0)
  else (App.initialized new_render, 1)

/-- Folds `App::resumed` over a sequence of resume calls, totalling the
windows created. -/
def App.run_resumed (a : App) : List Render → App × ℕ
  | [] => (a, 0)
  | r :: rest =>
      let (a', n) := a.resumed r
      let (a'', m) := a'.run_resumed rest
      (a'', n + m)

/-- Result of one `App::window_event` call: the new app state, whether
`event_loop.exit()` was called, and the GPU commands recorded (non-empty
only for `RedrawRequested`). -/
structure EventResult where
  app : App
  exited : Bool
  cmds : List RenderCmd
  deriving DecidableEq, Repr

/-- The `Render` an `App` holds, if initialized. -/
def App.renderState : App → Option Render
  | .uninitialized => none
  | .initialized r => some r

/-- Embeds `App::window_event` (`app.rs`): while `Uninitialized` the `let
else` returns at once; otherwise the event first goes to
`Render::handle_ui_inputs`, then `CloseRequested` exits the loop,
`Resized` calls `Render::resize`, `RedrawRequested` calls `Render::render`
and exits the loop on `Err`, and anything else does nothing further. -/
def App.window_event (a : App) (e : WindowEvent) (surface_ok : Bool) : EventResult :=
  match a with
  | .uninitialized => { app := a, exited := false, cmds := [] }
  | .initialized render =>
      let r := render.handle_ui_inputs e
      match e with
      | .closeRequested => { app := .initialized r, exited := true, cmds := [] }
      | .resized w h => { app := .initialized (r.resize w h), exited := false, cmds := [] }
      | .redrawRequested =>
          let res := r.render surface_ok
          { app := .initialized res.state, exited := !res.ok, cmds := res.cmds }
      | .other _ => { app := .initialized r, exited := false, cmds := [] }

/-- An operation applied to a `Render` after construction: a `render` call
(a `RedrawRequested` frame) or a `resize` call (a `Resized` event). -/
inductive RenderOp where
  | frame (surface_ok : Bool)
  | resizeTo (width height : ℕ)
  deriving DecidableEq, Repr

/-- Applies a sequence of render/resize operations to a `Render`. -/
def apply_ops (r : Render) : List RenderOp → Render
  | [] => r
  | .frame ok :: rest => apply_ops (r.render ok).state rest
  | .resizeTo w h :: rest => apply_ops (r.resize w h) rest

/-- Iterates successful `Render::render` calls. -/
def render_frames (r : Render) : ℕ → Render
  | 0 => r
  | n + 1 => render_frames (r.render true).state n

/-- Recognizes slider widgets. -/
def isSlider : Widget → Bool
  | .slider _ _ _ _ _ => true
  | _ => false

/-- Folds a sequence of control-panel interactions over the wave slots. -/
def apply_ui_ops (waves : List UiSineWaveData) (ops : List UiOp) : List UiSineWaveData :=
  ops.foldl apply_ui_op waves

/-- A concrete surface format (sRGB) for instantiating theorems. -/
def sampleFormat : TextureFormat := { code := 0, srgb := true }

/-- Concrete surface capabilities: a non-sRGB format listed before an sRGB
one, one present mode, one alpha mode. -/
def sampleCaps : SurfaceCapabilities :=
  { formats := [{ code := 5, srgb := false }, sampleFormat]
    present_modes := [0]
    alpha_modes := [0] }

/-- Surface capabilities with no formats. -/
def emptyCaps : SurfaceCapabilities :=
  { formats := [], present_modes := [0], alpha_modes := [0] }

/-- The concrete `Render` state `Render.new sampleCaps 640 480` produces. -/
def sampleRender : Render :=
  { config :=
      { format := sampleFormat, width := 640, height := 480
        present_mode := 0, alpha_mode := 0 }
    surface_configured_with :=
      { format := sampleFormat, width := 640, height := 480
        present_mode := 0, alpha_mode := 0 }
    sine_pipeline := { global := Global.new 800 600, wave_data := Waves.default }
    post_pipeline :=
      { global := Global.new 800 600
        off_screen_binding := { width := 640, height := 480, format := sampleFormat } }
    off_screen_texture := { width := 640, height := 480, format := sampleFormat }
    ui := Ui.new }

/-- C6: every run starts from the built-in wave configuration: all slots hold
the default parameters (amplitude 0.05, center (0.5, 0.5), inner radius 0.5,
thickness 0.01, cycles 8, speed 0.005) and exactly the first slot is marked
initialized. -/
theorem C6_default_wave_configuration :
    UiWaves.default.length = 8 ∧
    UiSineWaveData.default.amplitude = 5/100 ∧
    UiSineWaveData.default.center = (1/2, 1/2) ∧
    UiSineWaveData.default.inner_radius = 1/2 ∧
    UiSineWaveData.default.thickness = 1/100 ∧
    UiSineWaveData.default.cycles = 8 ∧
    UiSineWaveData.default.speed = 5/1000 ∧
    (∀ i : Fin 8, (UiWaves.default.getD i UiSineWaveData.default) =
      { UiSineWaveData.default with init := decide (i.val = 0) }) := by
  refine ⟨rfl, rfl, rfl, rfl, rfl, rfl, rfl, ?_⟩
  intro i
  fin_cases i <;> rfl

theorem render_state_phase (r : Render) (b : Bool) :
    (Render.render r b).state.sine_pipeline.global.phase
      = r.sine_pipeline.global.phase + 1 := by
  cases b <;> rfl

theorem render_state_ui (r : Render) (b : Bool) :
    (Render.render r b).state.ui = r.ui := by
  cases b <;> rfl

theorem render_state_resolution (r : Render) (b : Bool) :
    (Render.render r b).state.sine_pipeline.global.resolution
      = r.sine_pipeline.global.resolution := by
  cases b <;> rfl

theorem render_state_post (r : Render) (b : Bool) :
    (Render.render r b).state.post_pipeline = r.post_pipeline := by
  cases b <;> rfl

theorem render_state_wave_data (r : Render) (b : Bool) :
    (Render.render r b).state.sine_pipeline.wave_data
      = update_sine_wave_data r.sine_pipeline.wave_data r.ui.waves := by
  cases b <;> rfl

theorem render_cmds_take_two (r : Render) (b : Bool) :
    (Render.render r b).cmds.take 2 =
      [RenderCmd.writeGlobalBuffer r.sine_pipeline.global.increment_frame,
       RenderCmd.writeWaveBuffer
         (update_sine_wave_data r.sine_pipeline.wave_data r.ui.waves)] := by
  cases b <;> rfl

theorem resize_not_positive (r : Render) {w h : ℕ} (hwh : w = 0 ∨ h = 0) :
    r.resize w h = r := by
  rcases hwh with rfl | rfl <;> simp [Render.resize]

theorem render_frames_phase (n : ℕ) : ∀ r : Render,
    (render_frames r n).sine_pipeline.global.phase
      = r.sine_pipeline.global.phase + (n : ℚ) := by
  induction n with
  | zero => intro r; simp [render_frames]
  | succ n ih =>
      intro r
      rw [render_frames, ih, render_state_phase]
      push_cast
      ring

theorem choose_surface_format_isSome {caps : SurfaceCapabilities}
    (h : caps.formats ≠ []) : ∃ f, choose_surface_format caps = some f := by
  rcases hfind : caps.formats.find? (fun f => f.is_srgb) with _ | f
  · rcases hF : caps.formats with _ | ⟨f0, fs⟩
    · exact absurd hF h
    · refine ⟨f0, ?_⟩
      unfold choose_surface_format
      rw [hfind, hF]
      rfl
  · refine ⟨f, ?_⟩
    unfold choose_surface_format
    rw [hfind]
    rfl

theorem choose_surface_format_empty {caps : SurfaceCapabilities}
    (h : caps.formats = []) : choose_surface_format caps = none := by
  simp [choose_surface_format, h]

theorem Render.new_ok {caps : SurfaceCapabilities} {ww wh : ℕ} {r : Render}
    (h : Render.new caps ww wh = Except.ok r) :
    ∃ f p a, choose_surface_format caps = some f ∧
      caps.present_modes.head? = some p ∧
      caps.alpha_modes.head? = some a ∧
      r = { config := { format := f, width := ww, height := wh
                        present_mode := p, alpha_mode := a }
            surface_configured_with := { format := f, width := ww, height := wh
                                         present_mode := p, alpha_mode := a }
            sine_pipeline := { global := Global.new 800 600, wave_data := Waves.default }
            post_pipeline := { global := Global.new 800 600
                               off_screen_binding :=
                                 { width := ww, height := wh, format := f } }
            off_screen_texture := { width := ww, height := wh, format := f }
            ui := Ui.new } := by
  unfold Render.new at h
  rcases hf : choose_surface_format caps with _ | f <;> rw [hf] at h
  · exact absurd h (by simp)
  rcases hp : caps.present_modes.head? with _ | p <;> rw [hp] at h
  · exact absurd h (by simp)
  rcases ha : caps.alpha_modes.head? with _ | a <;> rw [ha] at h
  · exact absurd h (by simp)
  refine ⟨f, p, a, rfl, rfl, rfl, ?_⟩
  simpa using h.symm

theorem Render.new_of_nonempty {caps : SurfaceCapabilities} (ww wh : ℕ)
    (hF : caps.formats ≠ []) (hP : caps.present_modes ≠ [])
    (hA : caps.alpha_modes ≠ []) :
    ∃ r, Render.new caps ww wh = Except.ok r := by
  obtain ⟨f, hf⟩ := choose_surface_format_isSome hF
  rcases hPl : caps.present_modes with _ | ⟨p, ps⟩
  · exact absurd hPl hP
  rcases hAl : caps.alpha_modes with _ | ⟨a, as⟩
  · exact absurd hAl hA
  unfold Render.new
  rw [hf, hPl, hAl]
  exact ⟨_, rfl⟩

/-- C2: every `Render::render` call that succeeds records, in this order: a
pass that clears the off-screen texture to black and draws the sine
pipeline; a pass that clears the surface texture to black and draws the
post pipeline; a UI pass onto the same surface texture with load (not
clear); then a single queue submit followed by present (preceded only by
the two buffer writes the call makes before encoding). -/
theorem C2_render_sequencing (r : Render) (b : Bool)
    (h : (Render.render r b).ok = true) :
    (Render.render r b).cmds =
      [RenderCmd.writeGlobalBuffer r.sine_pipeline.global.increment_frame,
       RenderCmd.writeWaveBuffer
         (update_sine_wave_data r.sine_pipeline.wave_data r.ui.waves),
       RenderCmd.beginRenderPass Attachment.offScreen PassLoadOp.clearBlack,
       RenderCmd.drawSine
         (update_sine_wave_data r.sine_pipeline.wave_data r.ui.waves).length,
       RenderCmd.beginRenderPass Attachment.surface PassLoadOp.clearBlack,
       RenderCmd.drawPost,
       RenderCmd.beginRenderPass Attachment.surface PassLoadOp.load,
       RenderCmd.drawUi,
       RenderCmd.submit,
       RenderCmd.present] := by
  cases b with
  | false => exact Bool.noConfusion h
  | true => rfl

/-- Witness for C2 at the concrete state `sampleRender`. -/
theorem C2_render_sequencing_witness :
    (Render.render sampleRender true).cmds =
      [RenderCmd.writeGlobalBuffer sampleRender.sine_pipeline.global.increment_frame,
       RenderCmd.writeWaveBuffer
         (update_sine_wave_data sampleRender.sine_pipeline.wave_data
           sampleRender.ui.waves),
       RenderCmd.beginRenderPass Attachment.offScreen PassLoadOp.clearBlack,
       RenderCmd.drawSine
         (update_sine_wave_data sampleRender.sine_pipeline.wave_data
           sampleRender.ui.waves).length,
       RenderCmd.beginRenderPass Attachment.surface PassLoadOp.clearBlack,
       RenderCmd.drawPost,
       RenderCmd.beginRenderPass Attachment.surface PassLoadOp.load,
       RenderCmd.drawUi,
       RenderCmd.submit,
       RenderCmd.present] :=
  C2_render_sequencing sampleRender true rfl

/-- C3: `Render::new` returns an error exactly when the surface
capabilities list no formats, no present modes, or no alpha modes; when
all three lists are non-empty it succeeds, and the chosen surface format
is the first sRGB format when one exists and otherwise the first listed
format. -/
theorem C3_new_error_exactly_on_empty_caps :
    (∀ (caps : SurfaceCapabilities) (ww wh : ℕ),
      (∃ msg, Render.new caps ww wh = Except.error msg) ↔
        (caps.formats = [] ∨ caps.present_modes = [] ∨ caps.alpha_modes = [])) ∧
    (∀ (caps : SurfaceCapabilities) (ww wh : ℕ) (r : Render),
      Render.new caps ww wh = Except.ok r →
        (∀ f, caps.formats.find? (fun g => g.is_srgb) = some f →
          r.config.format = f) ∧
        (caps.formats.find? (fun g => g.is_srgb) = none →
          caps.formats.head? = some r.config.format)) := by
  constructor
  · intro caps ww wh
    constructor
    · rintro ⟨msg, hmsg⟩
      by_contra hne
      push_neg at hne
      obtain ⟨r, hr⟩ := Render.new_of_nonempty ww wh hne.1 hne.2.1 hne.2.2
      rw [hr] at hmsg
      exact Except.noConfusion hmsg
    · rintro (hF | hP | hA)
      · refine ⟨"Surface is incompatible with the adapter", ?_⟩
        unfold Render.new
        rw [choose_surface_format_empty hF]
      · rcases hc : choose_surface_format caps with _ | f
        · exact ⟨"Surface is incompatible with the adapter",
            by unfold Render.new; rw [hc]⟩
        · have hph : caps.present_modes.head? = none := by rw [hP]; rfl
          exact ⟨"Surface is incompatible with the adapter",
            by unfold Render.new; rw [hc, hph]⟩
      · rcases hc : choose_surface_format caps with _ | f
        · exact ⟨"Surface is incompatible with the adapter",
            by unfold Render.new; rw [hc]⟩
        · rcases hph : caps.present_modes.head? with _ | p
          · exact ⟨"Surface is incompatible with the adapter",
              by unfold Render.new; rw [hc, hph]⟩
          · have hah : caps.alpha_modes.head? = none := by rw [hA]; rfl
            exact ⟨"No supported alpha modes found",
              by unfold Render.new; rw [hc, hph, hah]⟩
  · intro caps ww wh r h
    obtain ⟨f, p, a, hf, hp, ha, rfl⟩ := Render.new_ok h
    unfold choose_surface_format at hf
    constructor
    · intro f' hfind
      rw [hfind] at hf
      simpa using hf.symm
    · intro hnone
      rw [hnone] at hf
      simpa using hf

/-- Witness for C3: empty formats give an error; on `sampleCaps` the
second listed format is chosen because it is the first sRGB one. -/
theorem C3_new_error_witness :
    (∃ msg, Render.new emptyCaps 640 480 = Except.error msg) ∧
      sampleRender.config.format = sampleFormat :=
  ⟨(C3_new_error_exactly_on_empty_caps.1 emptyCaps 640 480).mpr (Or.inl rfl),
   (C3_new_error_exactly_on_empty_caps.2 sampleCaps 640 480 sampleRender rfl).1
     sampleFormat rfl⟩

/-- C4: every `Render::render` call increments the global phase by exactly
1, the first command it records (before any render pass) is the write of
the updated `Global` uniform to the GPU buffer, and starting from
`Render::new` the phase after n frames equals n. -/
theorem C4_phase_one_step_per_frame :
    (∀ (r : Render) (b : Bool),
      (Render.render r b).state.sine_pipeline.global.phase
        = r.sine_pipeline.global.phase + 1) ∧
    (∀ (r : Render) (b : Bool),
      (Render.render r b).cmds.head? =
        some (RenderCmd.writeGlobalBuffer
          { r.sine_pipeline.global with
            phase := r.sine_pipeline.global.phase + 1 })) ∧
    (∀ (caps : SurfaceCapabilities) (ww wh : ℕ) (r : Render),
      Render.new caps ww wh = Except.ok r →
      ∀ n : ℕ, (render_frames r n).sine_pipeline.global.phase = (n : ℚ)) := by
  refine ⟨render_state_phase, ?_, ?_⟩
  · intro r b
    cases b <;> rfl
  · intro caps ww wh r h n
    obtain ⟨f, p, a, hf, hp, ha, rfl⟩ := Render.new_ok h
    rw [render_frames_phase]
    show (Global.new 800 600).phase + (n : ℚ) = (n : ℚ)
    simp [Global.new]

/-- Witness for C4: five frames after `Render.new sampleCaps 640 480` the
phase is 5. -/
theorem C4_phase_witness :
    (render_frames sampleRender 5).sine_pipeline.global.phase = ((5 : ℕ) : ℚ) :=
  C4_phase_one_step_per_frame.2.2 sampleCaps 640 480 sampleRender rfl 5

theorem run_resumed_initialized (r : Render) (rs : List Render) :
    (App.initialized r).run_resumed rs = (App.initialized r, 0) := by
  induction rs with
  | nil => rfl
  | cons x rest ih => simp [App.run_resumed, App.resumed, App.is_initialized, ih]

theorem resize_ui (r : Render) (w h : ℕ) : (r.resize w h).ui = r.ui := by
  unfold Render.resize
  split <;> rfl

/-- C5: the app creates at most one window: it starts `Uninitialized`, the
first `resumed` creates one window and initializes it, later `resumed`
calls create nothing, neither `resumed` nor `window_event` ever goes back
to `Uninitialized`, and window events while `Uninitialized` have no
effect. -/
theorem C5_at_most_one_window :
    App.default = App.uninitialized ∧
    (∀ r : Render, App.default.resumed r = (App.initialized r, 1)) ∧
    (∀ r r' : Render, (App.initialized r).resumed r' = (App.initialized r, 0)) ∧
    (∀ (a : App) (rs : List Render), (a.run_resumed rs).2 ≤ 1) ∧
    (∀ r r' : Render, ((App.initialized r).resumed r').1 ≠ App.uninitialized) ∧
    (∀ (r : Render) (e : WindowEvent) (b : Bool),
      ((App.initialized r).window_event e b).app ≠ App.uninitialized) ∧
    (∀ (e : WindowEvent) (b : Bool),
      App.uninitialized.window_event e b =
        { app := App.uninitialized, exited := false, cmds := [] }) := by
  refine ⟨rfl, fun r => rfl, fun r r' => rfl, ?_, fun r r' => by simp [App.resumed, App.is_initialized],
    ?_, fun e b => rfl⟩
  · intro a rs
    cases a with
    | initialized r =>
        rw [run_resumed_initialized]
        exact Nat.zero_le 1
    | uninitialized =>
        cases rs with
        | nil => exact Nat.zero_le 1
        | cons x rest =>
            simp [App.run_resumed, App.resumed, App.is_initialized,
              run_resumed_initialized]
  · intro r e b
    cases e <;> simp [App.window_event]

/-- C7: while initialized, every window event is forwarded to the UI input
handler exactly once and then dispatched: `CloseRequested` exits the loop,
`Resized` calls `Render::resize`, `RedrawRequested` calls `Render::render`
and exits the loop exactly when it fails, and every other event does
nothing further. -/
theorem C7_window_event_dispatch (r : Render) (b : Bool) :
    ((App.initialized r).window_event WindowEvent.closeRequested b =
      { app := App.initialized (r.handle_ui_inputs WindowEvent.closeRequested)
        exited := true
        cmds := [] }) ∧
    (∀ w h : ℕ, (App.initialized r).window_event (WindowEvent.resized w h) b =
      { app := App.initialized
          ((r.handle_ui_inputs (WindowEvent.resized w h)).resize w h)
        exited := false
        cmds := [] }) ∧
    ((App.initialized r).window_event WindowEvent.redrawRequested b =
      { app := App.initialized
          ((r.handle_ui_inputs WindowEvent.redrawRequested).render b).state
        exited := !((r.handle_ui_inputs WindowEvent.redrawRequested).render b).ok
        cmds := ((r.handle_ui_inputs WindowEvent.redrawRequested).render b).cmds }) ∧
    (∀ c : ℕ, (App.initialized r).window_event (WindowEvent.other c) b =
      { app := App.initialized (r.handle_ui_inputs (WindowEvent.other c))
        exited := false
        cmds := [] }) ∧
    (∀ e : WindowEvent,
      (((App.initialized r).window_event e b).app.renderState).map Render.ui
        = some (r.ui.handle_input e)) := by
  refine ⟨rfl, fun w h => rfl, rfl, fun c => rfl, ?_⟩
  intro e
  cases e with
  | closeRequested => rfl
  | resized w h =>
      show some ((Render.resize _ w h).ui) = _
      rw [resize_ui]
      rfl
  | redrawRequested =>
      show some ((Render.render _ b).state.ui) = _
      rw [render_state_ui]
      rfl
  | other c => rfl

/-- C9: `Render::resize` with a zero dimension is a complete no-op; with
both dimensions positive it updates the config size, reconfigures the
surface with it, updates both pipelines' resolution, and recreates the
off-screen texture and the post pipeline's off-screen bind group at the
new size. -/
theorem C9_resize_guard (r : Render) (w h : ℕ) :
    ((w = 0 ∨ h = 0) → r.resize w h = r) ∧
    (0 < w → 0 < h → r.resize w h =
      { config := { r.config with width := w, height := h },
        surface_configured_with := { r.config with width := w, height := h },
        sine_pipeline := { r.sine_pipeline with
          global := r.sine_pipeline.global.set_resolution w h },
        post_pipeline :=
          { global := r.post_pipeline.global.set_resolution w h,
            off_screen_binding :=
              { width := w, height := h, format := r.config.format } },
        off_screen_texture := { width := w, height := h, format := r.config.format },
        ui := r.ui }) := by
  constructor
  · exact resize_not_positive r
  · intro hw hh
    unfold Render.resize
    rw [if_pos ⟨hh, hw⟩]

/-- Witness for C9: a degenerate resize of `sampleRender` is a no-op and a
positive resize rebuilds the state at 320 by 240. -/
theorem C9_resize_witness :
    sampleRender.resize 0 5 = sampleRender ∧
    sampleRender.resize 320 240 =
      { config := { sampleRender.config with width := 320, height := 240 },
        surface_configured_with :=
          { sampleRender.config with width := 320, height := 240 },
        sine_pipeline := { sampleRender.sine_pipeline with
          global := sampleRender.sine_pipeline.global.set_resolution 320 240 },
        post_pipeline :=
          { global := sampleRender.post_pipeline.global.set_resolution 320 240,
            off_screen_binding :=
              { width := 320, height := 240, format := sampleRender.config.format } },
        off_screen_texture :=
          { width := 320, height := 240, format := sampleRender.config.format },
        ui := sampleRender.ui } :=
  ⟨(C9_resize_guard sampleRender 0 5).1 (Or.inl rfl),
   (C9_resize_guard sampleRender 320 240).2 (by decide) (by decide)⟩

theorem apply_ops_resolution (ops : List RenderOp) : ∀ r : Render,
    (∀ w h, RenderOp.resizeTo w h ∈ ops → w = 0 ∨ h = 0) →
    (apply_ops r ops).sine_pipeline.global.resolution
        = r.sine_pipeline.global.resolution ∧
    (apply_ops r ops).post_pipeline.global.resolution
        = r.post_pipeline.global.resolution := by
  induction ops with
  | nil => exact fun r _ => ⟨rfl, rfl⟩
  | cons op rest ih =>
      intro r hop
      cases op with
      | frame ok =>
          have hrest := ih (Render.render r ok).state
            (fun w h hm => hop w h (List.mem_cons_of_mem _ hm))
          show (apply_ops (Render.render r ok).state rest).sine_pipeline.global.resolution = _ ∧
            (apply_ops (Render.render r ok).state rest).post_pipeline.global.resolution = _
          rw [hrest.1, hrest.2, render_state_resolution, render_state_post]
          exact ⟨rfl, rfl⟩
      | resizeTo w h =>
          have hz := hop w h (List.mem_cons_self _ _)
          show (apply_ops (r.resize w h) rest).sine_pipeline.global.resolution = _ ∧
            (apply_ops (r.resize w h) rest).post_pipeline.global.resolution = _
          rw [resize_not_positive r hz]
          exact ih r (fun w' h' hm => hop w' h' (List.mem_cons_of_mem _ hm))

/-- C10: right after `Render::new` the `Global` resolution is (800, 600)
no matter the window inner size used for the surface and off-screen
texture, it stays (800, 600) across frames and degenerate resizes, and a
resize with positive dimensions overwrites it with the new size. -/
theorem C10_resolution_starts_800_600 :
    (∀ (caps : SurfaceCapabilities) (ww wh : ℕ) (r : Render),
      Render.new caps ww wh = Except.ok r →
        r.sine_pipeline.global.resolution = ((800 : ℚ), (600 : ℚ)) ∧
        r.post_pipeline.global.resolution = ((800 : ℚ), (600 : ℚ)) ∧
        r.config.width = ww ∧ r.config.height = wh ∧
        r.off_screen_texture.width = ww ∧ r.off_screen_texture.height = wh) ∧
    (∀ (caps : SurfaceCapabilities) (ww wh : ℕ) (r : Render),
      Render.new caps ww wh = Except.ok r →
      ∀ ops : List RenderOp,
        (∀ w h, RenderOp.resizeTo w h ∈ ops → w = 0 ∨ h = 0) →
        (apply_ops r ops).sine_pipeline.global.resolution
          = ((800 : ℚ), (600 : ℚ))) ∧
    (∀ (r : Render) (w h : ℕ), 0 < w → 0 < h →
      (r.resize w h).sine_pipeline.global.resolution = ((w : ℚ), (h : ℚ)) ∧
      (r.resize w h).post_pipeline.global.resolution = ((w : ℚ), (h : ℚ))) := by
  refine ⟨?_, ?_, ?_⟩
  · intro caps ww wh r h
    obtain ⟨f, p, a, hf, hp, ha, rfl⟩ := Render.new_ok h
    refine ⟨?_, ?_, rfl, rfl, rfl, rfl⟩ <;> norm_num [Global.new]
  · intro caps ww wh r h ops hops
    rw [(apply_ops_resolution ops r hops).1]
    obtain ⟨f, p, a, hf, hp, ha, rfl⟩ := Render.new_ok h
    norm_num [Global.new]
  · intro r w h hw hh
    unfold Render.resize
    rw [if_pos ⟨hh, hw⟩]
    exact ⟨rfl, rfl⟩

/-- Witness for C10: after `Render.new sampleCaps 640 480` the resolution
is (800, 600), it is still (800, 600) after a frame and a degenerate
resize, and a positive resize overwrites it. -/
theorem C10_resolution_witness :
    (apply_ops sampleRender
      [RenderOp.frame true, RenderOp.resizeTo 0 7]).sine_pipeline.global.resolution
        = ((800 : ℚ), (600 : ℚ)) ∧
    (sampleRender.resize 320 240).sine_pipeline.global.resolution
        = ((320 : ℚ), (240 : ℚ)) :=
  ⟨C10_resolution_starts_800_600.2.1 sampleCaps 640 480 sampleRender rfl
      [RenderOp.frame true, RenderOp.resizeTo 0 7]
      (by
        rintro w h hm
        simp at hm
        exact Or.inl hm.1),
   (C10_resolution_starts_800_600.2.2 sampleRender 320 240
      (by decide) (by decide)).1⟩

theorem filter_flatMap {α β : Type} (l : List α) (f : α → List β) (p : β → Bool) :
    (l.flatMap f).filter p = l.flatMap (fun x => (f x).filter p) := by
  induction l with
  | nil => rfl
  | cons x xs ih => simp [List.flatMap_cons, List.filter_append, ih]

theorem panel_filter_sliders (waves : List UiSineWaveData) :
    (panelWidgets waves).filter isSlider =
      (waves.filter (fun w => w.init)).flatMap
        (fun w => (sliderWidgetsOfWave w).filter isSlider) := by
  unfold panelWidgets
  rcases hf : waves.findIdx? (fun w => !w.init) with _ | pos <;>
    rw [hf, List.filter_append, List.filter_append, filter_flatMap] <;> rfl

theorem editSlot_length (waves : List UiSineWaveData) (i : ℕ)
    (f : UiSineWaveData → UiSineWaveData) :
    (editSlot waves i f).length = waves.length := by
  unfold editSlot
  split <;> simp

theorem add_wave_click_length (waves : List UiSineWaveData) :
    (add_wave_click waves).length = waves.length := by
  unfold add_wave_click
  split <;> simp

theorem apply_ui_op_length (waves : List UiSineWaveData) (op : UiOp) :
    (apply_ui_op waves op).length = waves.length := by
  cases op <;> simp [apply_ui_op, editSlot_length, add_wave_click_length]

theorem apply_ui_ops_length (ops : List UiOp) : ∀ waves : List UiSineWaveData,
    (apply_ui_ops waves ops).length = waves.length := by
  induction ops with
  | nil => intro waves; rfl
  | cons op rest ih =>
      intro waves
      show (apply_ui_ops (apply_ui_op waves op) rest).length = _
      rw [ih, apply_ui_op_length]

theorem editSlot_init_preserved (waves : List UiSineWaveData) (i : ℕ)
    (f : UiSineWaveData → UiSineWaveData) (hf : ∀ w, (f w).init = w.init)
    (j : ℕ) (h : waves[j]?.map UiSineWaveData.init = some true) :
    (editSlot waves i f)[j]?.map UiSineWaveData.init = some true := by
  unfold editSlot
  split
  · by_cases hji : i = j
    · subst hji
      by_cases hlen : i < waves.length
      · rw [List.getElem?_set_self hlen]
        show some (f (waves.getD i UiSineWaveData.default)).init = some true
        rw [hf]
        rw [List.getD_eq_getElem?_getD, List.getElem?_eq_getElem hlen]
        rw [List.getElem?_eq_getElem hlen] at h
        simpa using h
      · rw [List.getElem?_eq_none (Nat.le_of_not_lt hlen)] at h
        exact Option.noConfusion h
    · rw [List.getElem?_set_ne hji]
      exact h
  · exact h

theorem add_wave_click_init_preserved (waves : List UiSineWaveData) (j : ℕ)
    (h : waves[j]?.map UiSineWaveData.init = some true) :
    (add_wave_click waves)[j]?.map UiSineWaveData.init = some true := by
  unfold add_wave_click
  split
  · next pos hpos =>
      by_cases hji : pos = j
      · subst hji
        obtain ⟨hlt, -, -⟩ := List.findIdx?_eq_some_iff_getElem.mp hpos
        rw [List.getElem?_set_self hlt]
        rfl
      · rw [List.getElem?_set_ne hji]
        exact h
  · exact h

theorem apply_ui_op_init_preserved (waves : List UiSineWaveData) (op : UiOp)
    (j : ℕ) (h : waves[j]?.map UiSineWaveData.init = some true) :
    (apply_ui_op waves op)[j]?.map UiSineWaveData.init = some true := by
  cases op with
  | addWave => exact add_wave_click_init_preserved waves j h
  | setCenterX i v =>
      exact editSlot_init_preserved waves i
        (fun w => { w with center := (v, w.center.2) }) (fun w => rfl) j h
  | setCenterY i v =>
      exact editSlot_init_preserved waves i
        (fun w => { w with center := (w.center.1, v) }) (fun w => rfl) j h
  | setAmplitude i v =>
      exact editSlot_init_preserved waves i
        (fun w => { w with amplitude := v }) (fun w => rfl) j h
  | setInnerRadius i v =>
      exact editSlot_init_preserved waves i
        (fun w => { w with inner_radius := v }) (fun w => rfl) j h
  | setThickness i v =>
      exact editSlot_init_preserved waves i
        (fun w => { w with thickness := v }) (fun w => rfl) j h
  | setCycles i v =>
      exact editSlot_init_preserved waves i
        (fun w => { w with cycles := v }) (fun w => rfl) j h
  | setSpeed i v =>
      exact editSlot_init_preserved waves i
        (fun w => { w with speed := v }) (fun w => rfl) j h

theorem button_mem_iff (waves : List UiSineWaveData) :
    Widget.button "Add Wave" ∈ panelWidgets waves ↔
      ∃ w ∈ waves, w.init = false := by
  unfold panelWidgets
  rcases hf : waves.findIdx? (fun w => !w.init) with _ | pos <;> rw [hf]
  · rw [List.findIdx?_eq_none_iff] at hf
    constructor
    · intro hmem
      simp [sliderWidgetsOfWave] at hmem
    · rintro ⟨w, hw, hinit⟩
      have hfw := hf w hw
      rw [hinit] at hfw
      exact Bool.noConfusion hfw
  · obtain ⟨hlt, hp, -⟩ := List.findIdx?_eq_some_iff_getElem.mp hf
    constructor
    · intro _
      refine ⟨waves[pos], List.getElem_mem hlt, ?_⟩
      simpa using hp
    · intro _
      simp

/-- C1: the control panel shows, for exactly the initialized slots, the
parameter sliders with the ranges of the source (center x and y in 0..=1,
amplitude in 0..=0.1, inner radius in 0..=1, thickness in 0.01..=0.1,
cycles in 1..=16 with step 1, speed in -0.1..=0.1); and on every frame,
before any pass is recorded, the UI values are copied index by index into
the sine pipeline's stored wave data (fields center, amplitude,
inner_radius, thickness, cycles, speed), one stored wave per UI slot. -/
theorem C1_sliders_and_per_frame_copy :
    (∀ waves : List UiSineWaveData,
      (panelWidgets waves).filter isSlider =
        (waves.filter (fun w => w.init)).flatMap (fun w =>
          [Widget.slider w.center.1 0 1 none "X",
           Widget.slider w.center.2 0 1 none "Y",
           Widget.slider w.amplitude 0 (1/10) none "Amplitude",
           Widget.slider w.inner_radius 0 1 none "Inner Radius",
           Widget.slider w.thickness (1/100) (1/10) none "Thickness",
           Widget.slider w.cycles 1 16 (some 1) "Cycles",
           Widget.slider w.speed (-(1/10)) (1/10) none "Speed"])) ∧
    Waves.default.length = 8 ∧ UiWaves.default.length = 8 ∧
    (∀ (r : Render) (b : Bool),
      (Render.render r b).state.sine_pipeline.wave_data
        = update_sine_wave_data r.sine_pipeline.wave_data r.ui.waves ∧
      (Render.render r b).cmds.take 2 =
        [RenderCmd.writeGlobalBuffer r.sine_pipeline.global.increment_frame,
         RenderCmd.writeWaveBuffer
           (update_sine_wave_data r.sine_pipeline.wave_data r.ui.waves)]) ∧
    (∀ (old : List SineWaveData) (ui : List UiSineWaveData) (i : ℕ),
      i < old.length → i < ui.length →
      (update_sine_wave_data old ui)[i]? =
        some { old.getD i SineWaveData.default with
          center := (ui.getD i UiSineWaveData.default).center,
          amplitude := (ui.getD i UiSineWaveData.default).amplitude,
          inner_radius := (ui.getD i UiSineWaveData.default).inner_radius,
          thickness := (ui.getD i UiSineWaveData.default).thickness,
          cycles := (ui.getD i UiSineWaveData.default).cycles,
          speed := (ui.getD i UiSineWaveData.default).speed }) := by
  refine ⟨?_, rfl, rfl, ?_, ?_⟩
  · intro waves
    rw [panel_filter_sliders]
    rfl
  · intro r b
    exact ⟨render_state_wave_data r b, render_cmds_take_two r b⟩
  · intro old ui i hi hj
    have h1 : old.getD i SineWaveData.default = old[i] := by
      rw [List.getD_eq_getElem?_getD, List.getElem?_eq_getElem hi]
      rfl
    have h2 : ui.getD i UiSineWaveData.default = ui[i] := by
      rw [List.getD_eq_getElem?_getD, List.getElem?_eq_getElem hj]
      rfl
    rw [h1, h2, update_sine_wave_data, List.getElem?_zipWith,
      List.getElem?_eq_getElem hi, List.getElem?_eq_getElem hj]
    rfl

/-- Witness for C1: the copy at slot 0 of the default stored waves and
default UI waves. -/
theorem C1_copy_witness :
    (update_sine_wave_data Waves.default UiWaves.default)[0]? =
      some { Waves.default.getD 0 SineWaveData.default with
        center := (UiWaves.default.getD 0 UiSineWaveData.default).center,
        amplitude := (UiWaves.default.getD 0 UiSineWaveData.default).amplitude,
        inner_radius := (UiWaves.default.getD 0 UiSineWaveData.default).inner_radius,
        thickness := (UiWaves.default.getD 0 UiSineWaveData.default).thickness,
        cycles := (UiWaves.default.getD 0 UiSineWaveData.default).cycles,
        speed := (UiWaves.default.getD 0 UiSineWaveData.default).speed } :=
  C1_sliders_and_per_frame_copy.2.2.2.2 Waves.default UiWaves.default 0
    (by simp [Waves.default]) (by simp [UiWaves.default])

/-- C8: the UI wave array always has exactly 8 slots; the Add Wave button
is in the panel exactly while some slot is uninitialized; a click
initializes the first such slot (whose earlier slots are all initialized)
while changing nothing else; and no panel operation ever clears an `init`
flag. -/
theorem C8_eight_slots_and_add_wave :
    UiWaves.default.length = 8 ∧
    (∀ (waves : List UiSineWaveData) (op : UiOp),
      (apply_ui_op waves op).length = waves.length) ∧
    (∀ ops : List UiOp, (apply_ui_ops UiWaves.default ops).length = 8) ∧
    (∀ waves : List UiSineWaveData,
      Widget.button "Add Wave" ∈ panelWidgets waves ↔
        ∃ w ∈ waves, w.init = false) ∧
    (∀ (waves : List UiSineWaveData) (pos : ℕ),
      waves.findIdx? (fun w => !w.init) = some pos →
      (add_wave_click waves)[pos]? =
        some { waves.getD pos UiSineWaveData.default with init := true } ∧
      (∀ j, j ≠ pos → (add_wave_click waves)[j]? = waves[j]?) ∧
      (∀ j, j < pos → waves[j]?.map UiSineWaveData.init = some true)) ∧
    (∀ (waves : List UiSineWaveData) (op : UiOp) (j : ℕ),
      waves[j]?.map UiSineWaveData.init = some true →
      (apply_ui_op waves op)[j]?.map UiSineWaveData.init = some true) := by
  refine ⟨rfl, apply_ui_op_length, ?_, button_mem_iff, ?_, apply_ui_op_init_preserved⟩
  · intro ops
    rw [apply_ui_ops_length]
    rfl
  · intro waves pos hpos
    obtain ⟨hlt, hp, hbefore⟩ := List.findIdx?_eq_some_iff_getElem.mp hpos
    refine ⟨?_, ?_, ?_⟩
    · unfold add_wave_click
      rw [hpos]
      exact List.getElem?_set_self hlt
    · intro j hj
      unfold add_wave_click
      rw [hpos]
      exact List.getElem?_set_ne (fun he => hj he.symm)
    · intro j hj
      have hjlt : j < waves.length := Nat.lt_trans hj hlt
      have hj' := hbefore j hj
      simp only [Bool.not_eq_true] at hj'
      have hj2 : waves[j].init = true := by
        cases hb : waves[j].init
        · rw [hb] at hj'
          exact Bool.noConfusion hj'
        · rfl
      rw [List.getElem?_eq_getElem hjlt]
      simp [hj2]

/-- Witness for C8: on the default slots the first uninitialized slot is
slot 1; clicking Add Wave initializes it, and an amplitude edit keeps slot
0 initialized. -/
theorem C8_add_wave_witness :
    ((add_wave_click UiWaves.default)[1]? =
      some { UiWaves.default.getD 1 UiSineWaveData.default with init := true }) ∧
    ((apply_ui_op UiWaves.default (UiOp.setAmplitude 0 (1/4)))[0]?.map
        UiSineWaveData.init = some true) :=
  ⟨(C8_eight_slots_and_add_wave.2.2.2.2.1 UiWaves.default 1 rfl).1,
   C8_eight_slots_and_add_wave.2.2.2.2.2 UiWaves.default
     (UiOp.setAmplitude 0 (1/4)) 0 rfl⟩

/-- Witness for C5: two resume calls from startup create at most one
window, and a window event before initialization does nothing. -/
theorem C5_single_window_witness :
    (App.uninitialized.run_resumed [sampleRender, sampleRender]).2 ≤ 1 ∧
    App.uninitialized.window_event WindowEvent.closeRequested true =
      { app := App.uninitialized, exited := false, cmds := [] } :=
  ⟨C5_at_most_one_window.2.2.2.1 App.uninitialized [sampleRender, sampleRender],
   C5_at_most_one_window.2.2.2.2.2.2 WindowEvent.closeRequested true⟩

/-- Witness for C7: dispatch of a close request on the concrete state, and
forwarding of a resize event to the UI handler. -/
theorem C7_dispatch_witness :
    (App.initialized sampleRender).window_event WindowEvent.closeRequested true =
      { app := App.initialized
          (sampleRender.handle_ui_inputs WindowEvent.closeRequested)
        exited := true
        cmds := [] } ∧
    ((App.initialized sampleRender).window_event
        (WindowEvent.resized 0 0) true).app.renderState.map Render.ui
      = some (sampleRender.ui.handle_input (WindowEvent.resized 0 0)) :=
  ⟨(C7_window_event_dispatch sampleRender true).1,
   (C7_window_event_dispatch sampleRender true).2.2.2.2 (WindowEvent.resized 0 0)⟩

end Sigil
